import Mathlib

/-!
Verification of the particle choreography and mode-transition engine of
`src/main.js` (interactive particle tree installation).

The definitions below are a shallow embedding of the relevant parts of the
source.  Machine floats are modelled as real numbers; the browser clock,
`Math.random()` draws and the outcome of asynchronous `play()` promises are
passed in as explicit parameters.  Mutable module-level state (`STATE`,
`_prevMode`, `videoEl.paused`, `videoEl.muted`) is threaded through explicit
state records; per-frame imperative loops become per-index step functions.
-/

/-- Mode of the installation, source `STATE.mode` (strings `'TREE'` /
`'SCATTER'` in the JS). -/
inductive Mode where
  | TREE
  | SCATTER
deriving DecidableEq, Fintype

/-- Gesture tag, source `STATE.gesture` (strings `'NONE'`, `'OPEN'`,
`'CLOSED'`, `'PINCH'`). -/
inductive Gesture where
  | NONE
  | OPEN
  | CLOSED
  | PINCH
deriving DecidableEq, Fintype

namespace CONFIG

/-- Source `CONFIG.particleCount = 8000`. -/
def particleCount : ℕ := 8000

/-- Source `CONFIG.treeHeight = 6`. -/
def treeHeight : ℝ := 6

/-- Source `CONFIG.treeRadius = 2.5`. -/
def treeRadius : ℝ := 2.5

/-- Source `CONFIG.scatterRadius = 8`. -/
def scatterRadius : ℝ := 8

/-- Source `CONFIG.lerpSpeed = 0.05`. -/
def lerpSpeed : ℝ := 0.05

/-- Source `CONFIG.spiralCount = 600`. -/
def spiralCount : ℕ := 600

/-- Source `CONFIG.spiralTurns = 5`. -/
def spiralTurns : ℝ := 5

/-- Source `CONFIG.spiralSpeed = 0.8`. -/
def spiralSpeed : ℝ := 0.8

end CONFIG

/-- A 3D coordinate (the JS code stores flat `[x0,y0,z0,x1,...]` arrays;
we model one triple per particle index). -/
structure Vec3 where
  x : ℝ
  y : ℝ
  z : ℝ

/-- Euclidean norm of a coordinate triple. -/
noncomputable def vecNorm (v : Vec3) : ℝ :=
  Real.sqrt (v.x ^ 2 + v.y ^ 2 + v.z ^ 2)

/-- Source `THREE.MathUtils.lerp(x, y, t) = (1 - t) * x + t * y`. -/
def lerp (x y t : ℝ) : ℝ := (1 - t) * x + t * y

/-- A 2D hand landmark as consumed by `onHandsResults` (only the `x` and `y`
fields of a MediaPipe landmark are read; `z` is always replaced by `0`). -/
structure Landmark where
  x : ℝ
  y : ℝ

/-- Source: `wristPos.distanceTo(tipPos)` on `THREE.Vector3`s whose `z`
components are both `0`, i.e. the planar Euclidean distance. -/
noncomputable def dist2 (a b : Landmark) : ℝ :=
  Real.sqrt ((a.x - b.x) ^ 2 + (a.y - b.y) ^ 2)

/-- Source `onHandsResults` lines 692-700: average of the distances from the
wrist (landmark 0) to the four fingertips (landmarks 8, 12, 16, 20),
accumulated in that order and divided by 4. -/
noncomputable def avgDistOf (lm : ℕ → Landmark) : ℝ :=
  (dist2 (lm 0) (lm 8) + dist2 (lm 0) (lm 12) +
    dist2 (lm 0) (lm 16) + dist2 (lm 0) (lm 20)) / 4

/-- The mutable `STATE` record of the source (lines 78-86).  All fields the
gesture callback can touch are included; `rotationTarget` is declared in the
source but never written after initialization. -/
structure HandsState where
  mode : Mode
  isPlayingVideo : Bool
  handDetected : Bool
  handX : ℝ
  gesture : Gesture
  rotationTarget : ℝ
  videoOpacity : ℝ

/-- The initial `STATE` value (source lines 78-86). -/
def initialState : HandsState :=
  { mode := Mode.TREE
    isPlayingVideo := false
    handDetected := false
    handX := 0
    gesture := Gesture.NONE
    rotationTarget := 0
    videoOpacity := 0 }

/-- Source `onHandsResults` lines 704-713: the open/closed classification.
`isClosed` iff `avgDist < 0.25`, `isOpen` iff `avgDist > 0.35`; closed sets
gesture CLOSED and mode TREE, otherwise open sets gesture OPEN and mode
SCATTER, otherwise nothing changes. -/
noncomputable def classifyOpenClosed (s : HandsState) (avgDist : ℝ) : HandsState :=
  if avgDist < 0.25 then
    { s with gesture := Gesture.CLOSED, mode := Mode.TREE }
  else if avgDist > 0.35 then
    { s with gesture := Gesture.OPEN, mode := Mode.SCATTER }
  else s

/-- Source `onHandsResults` lines 720-733: the pinch branch.  If the
thumb-tip/index-tip distance is below `0.05` the gesture becomes PINCH and,
when the mode is SCATTER, the blended video opacity exceeds `0.8` and the
video is not already flagged as playing, `STATE.isPlayingVideo` is set `true`
and `videoEl.play()` is called.  The returned boolean records whether
`videoEl.play()` was requested by this branch. -/
noncomputable def pinchStep (s : HandsState) (pinchDist : ℝ) : HandsState × Bool :=
  if pinchDist < 0.05 then
    let s1 := { s with gesture := Gesture.PINCH }
    if s1.mode = Mode.SCATTER ∧ s1.videoOpacity > 0.8 then
      if s1.isPlayingVideo = false then
        ({ s1 with isPlayingVideo := true }, true)
      else (s1, false)
    else (s1, false)
  else (s, false)

/-- Source `onHandsResults` (lines 672-735).  The callback first clears
`handDetected`; with no hand landmarks nothing else happens.  With a hand it
sets `handDetected`, maps the wrist x into `[-1,1]`, runs the open/closed
classification on the averaged wrist-to-fingertip distance, and finally the
pinch branch on the thumb-tip/index-tip distance.  The boolean output records
whether `videoEl.play()` was requested. -/
noncomputable def onHandsResults (s : HandsState) (hand : Option (ℕ → Landmark)) :
    HandsState × Bool :=
  let s0 := { s with handDetected := false }
  match hand with
  | none => (s0, false)
  | some lm =>
    let s1 := { s0 with handDetected := true, handX := ((lm 0).x - 0.5) * 2 }
    let s2 := classifyOpenClosed s1 (avgDistOf lm)
    pinchStep s2 (dist2 (lm 4) (lm 8))

/-- State of the video element and the animator's mode-edge tracking:
`mode`/`isPlayingVideo` from `STATE`, `videoPaused`/`videoMuted` from the
`videoEl` DOM element, `prevMode` is the module-level `_prevMode`. -/
structure VideoState where
  mode : Mode
  prevMode : Mode
  isPlayingVideo : Bool
  videoPaused : Bool
  videoMuted : Bool
deriving DecidableEq, Fintype

/-- Source `animate` step 1 (lines 751-757): while in TREE mode, if the
video is flagged as playing, clear the flag and pause the element. -/
def treeStopStep (s : VideoState) : VideoState :=
  if s.mode = Mode.TREE then
    if s.isPlayingVideo then
      { s with isPlayingVideo := false, videoPaused := true }
    else s
  else s

/-- Source `animate` mode-transition block (lines 792-835).  Runs only when
`STATE.mode` differs from `_prevMode`.  Entering SCATTER: set
`videoEl.muted = !userInteracted` and call `videoEl.play()`; the promise
continuation marks `isPlayingVideo = true` on success (the asynchronous
resolution is modelled by the `playSucceeds` oracle, applied within the same
step).  Leaving SCATTER: if the element is not paused, pause it and clear
`isPlayingVideo`.  Finally `_prevMode` is set to the current mode regardless
of the outcome of the play attempt.  The boolean output records whether
`videoEl.play()` was requested. -/
def modeTransitionStep (userInteracted playSucceeds : Bool) (s : VideoState) :
    VideoState × Bool :=
  if s.mode ≠ s.prevMode then
    let entered :=
      if s.mode = Mode.SCATTER then
        let sm := { s with videoMuted := !userInteracted }
        (if playSucceeds then
           { sm with videoPaused := false, isPlayingVideo := true }
         else sm, true)
      else (s, false)
    let s1 := entered.1
    let s2 :=
      if s1.mode ≠ Mode.SCATTER ∧ s1.videoPaused = false then
        { s1 with videoPaused := true, isPlayingVideo := false }
      else s1
    ({ s2 with prevMode := s2.mode }, entered.2)
  else (s, false)

/-- The video-related portion of one `animate` tick in source order: step 1
(TREE stop) runs before the mode-transition block; the numeric blending steps
between them do not touch any `VideoState` field. -/
def videoTick (userInteracted playSucceeds : Bool) (s : VideoState) :
    VideoState × Bool :=
  modeTransitionStep userInteracted playSucceeds (treeStopStep s)

/-- Truncation toward zero, the rounding used by the JavaScript `%`
operator. -/
noncomputable def jsTrunc (x : ℝ) : ℤ :=
  if 0 ≤ x then ⌊x⌋ else ⌈x⌉

/-- The JavaScript remainder operator `a % b`:
`a - b * trunc(a / b)`. -/
noncomputable def jsMod (a b : ℝ) : ℝ :=
  a - b * jsTrunc (a / b)

/-- Spec-side formula: normalized height of a spiral particle,
`(y + treeHeight/2) / treeHeight`. -/
noncomputable def specSpiralNormH (y : ℝ) : ℝ :=
  (y + CONFIG.treeHeight / 2) / CONFIG.treeHeight

/-- Spec-side formula: spiral radius from the wrapped normalized height,
`(1 - normH) * treeRadius * 1.15 + 0.2`. -/
noncomputable def specSpiralRadius (y : ℝ) : ℝ :=
  (1 - specSpiralNormH y) * CONFIG.treeRadius * 1.15 + 0.2

/-- Spec-side formula: spiral angle from the wrapped normalized height plus
the time-driven term, `normH * 2pi * spiralTurns + time * spiralSpeed`. -/
noncomputable def specSpiralAngle (y t : ℝ) : ℝ :=
  specSpiralNormH y * Real.pi * 2 * CONFIG.spiralTurns + t * CONFIG.spiralSpeed

/-- Source `animate` spiral update (lines 876-911), one particle.  In TREE
mode the position is computed analytically from the elapsed time (the
previous position is never read); in SCATTER mode the precomputed scatter
coordinate is written directly. -/
noncomputable def spiralStep (mode : Mode) (scatterC : ℕ → Vec3) (time : ℝ)
    (i : ℕ) (_prev : Vec3) : Vec3 :=
  let pct : ℝ := (i : ℝ) / (CONFIG.spiralCount : ℝ)
  let baseTy := pct * CONFIG.treeHeight - CONFIG.treeHeight / 2
  if mode = Mode.TREE then
    let treeHeightSpan := CONFIG.treeHeight
    let treeTop := CONFIG.treeHeight / 2
    let flowOffset := jsMod (time * CONFIG.spiralSpeed) treeHeightSpan
    let ty0 := baseTy + flowOffset
    let ty := if ty0 > treeTop then ty0 - treeHeightSpan else ty0
    let normH := (ty + CONFIG.treeHeight / 2) / CONFIG.treeHeight
    let angle := normH * Real.pi * 2 * CONFIG.spiralTurns + time * CONFIG.spiralSpeed
    let r := (1 - normH) * CONFIG.treeRadius * 1.15 + 0.2
    ⟨Real.cos angle * r, ty, Real.sin angle * r⟩
  else
    scatterC i

/-- Real cube root as used on the `Math.random()` draws in `[0,1)`
(`Math.cbrt`); for nonnegative arguments this is `x ^ (1/3)`. -/
noncomputable def cbrt (x : ℝ) : ℝ := x ^ ((1 : ℝ) / 3)

/-- Source scatter-target generation (lines 295-303): one sample of the
Main Cloud scatter table from three uniform draws `u, v, w` in `[0,1)`:
`sr = scatterRadius * cbrt(u)`, `theta = v * 2pi`, `phi = acos(2w - 1)`,
converted to Cartesian coordinates. -/
noncomputable def scatterSample (u v w : ℝ) : Vec3 :=
  let sr := CONFIG.scatterRadius * cbrt u
  let theta := v * 2 * Real.pi
  let phi := Real.arccos (2 * w - 1)
  ⟨sr * Real.sin phi * Real.cos theta,
   sr * Real.sin phi * Real.sin theta,
   sr * Real.cos phi⟩

/-- Source `animate` Main Cloud update (lines 955-969): the per-tick target
of particle `i`.  In TREE mode it is the tree-table entry; in SCATTER mode it
is the scatter-table entry with the vertical oscillation
`sin(time + tx) * 0.005` added to its `y` component. -/
noncomputable def mainCloudTarget (mode : Mode) (treeP scatterP : ℕ → Vec3)
    (time : ℝ) (i : ℕ) : Vec3 :=
  match mode with
  | Mode.TREE => treeP i
  | Mode.SCATTER =>
    let t := scatterP i
    ⟨t.x, t.y + Real.sin (time + t.x) * 0.005, t.z⟩

/-- Source `animate` Main Cloud update (lines 947-977), one particle: each
live coordinate is lerped toward the selected target with factor
`CONFIG.lerpSpeed`. -/
noncomputable def mainCloudStep (mode : Mode) (treeP scatterP : ℕ → Vec3)
    (time : ℝ) (i : ℕ) (p : Vec3) : Vec3 :=
  let t := mainCloudTarget mode treeP scatterP time i
  ⟨lerp p.x t.x CONFIG.lerpSpeed,
   lerp p.y t.y CONFIG.lerpSpeed,
   lerp p.z t.z CONFIG.lerpSpeed⟩

/-- Concrete landmark set with every landmark at the origin (wrist and all
fingertips coincide): zero average distance and zero pinch distance. -/
def lmAllZero : ℕ → Landmark := fun _ => ⟨0, 0⟩

/-- Concrete landmark set: wrist at the origin, every other landmark at
`(0.1, 0)`, so each wrist-to-fingertip distance is `0.1`. -/
noncomputable def lmClosed : ℕ → Landmark := fun i =>
  if i = 0 then ⟨0, 0⟩ else ⟨0.1, 0⟩

/-- Helper: one lerp tick shrinks the distance to the target by exactly the
factor `1 - f` (for `f ≤ 1`). -/
theorem abs_lerp_sub (v t f : ℝ) (hf : f ≤ 1) :
    |lerp v t f - t| = |v - t| * (1 - f) := by
  have h : lerp v t f - t = (1 - f) * (v - t) := by
    unfold lerp; ring
  rw [h, abs_mul, abs_of_nonneg (by linarith : (0:ℝ) ≤ 1 - f), mul_comm]

/-- Helper: for a nonnegative dividend and positive divisor the JS remainder
is `b` times the fractional part of `a / b`. -/
theorem jsMod_eq_fract (a b : ℝ) (ha : 0 ≤ a) (hb : 0 < b) :
    jsMod a b = b * Int.fract (a / b) := by
  have hd : 0 ≤ a / b := div_nonneg ha hb.le
  have hb0 : b ≠ 0 := ne_of_gt hb
  unfold jsMod jsTrunc Int.fract
  rw [if_pos hd, mul_sub, mul_div_cancel₀ a hb0]

/-- Helper: the JS remainder of a nonnegative dividend is nonnegative. -/
theorem jsMod_nonneg (a b : ℝ) (ha : 0 ≤ a) (hb : 0 < b) :
    0 ≤ jsMod a b := by
  rw [jsMod_eq_fract a b ha hb]
  exact mul_nonneg hb.le (Int.fract_nonneg _)

/-- Helper: the JS remainder of a nonnegative dividend is below the positive
divisor. -/
theorem jsMod_lt (a b : ℝ) (ha : 0 ≤ a) (hb : 0 < b) :
    jsMod a b < b := by
  rw [jsMod_eq_fract a b ha hb]
  calc b * Int.fract (a / b) < b * 1 :=
        (mul_lt_mul_left hb).mpr (Int.fract_lt_one _)
    _ = b := mul_one b

/-- Helper: the JS remainder differs from the dividend by an integer
multiple of the divisor. -/
theorem jsMod_sub_int (a b : ℝ) :
    ∃ k : ℤ, jsMod a b = a - (k : ℝ) * b := by
  exact ⟨jsTrunc (a / b), by unfold jsMod; ring⟩

/-- Claim C9: with no hand landmarks present the callback sets
`handDetected` to `false`, requests no playback, and leaves every other
Session State field unchanged. -/
theorem C9_no_hand_callback (s : HandsState) :
    onHandsResults s none = ({ s with handDetected := false }, false) := rfl

/-- Claim C2: the open/closed classification on the averaged
wrist-to-fingertip distance sets gesture CLOSED and mode TREE below `0.25`,
gesture OPEN and mode SCATTER above `0.35`, and changes nothing at all for
averages in the dead zone `[0.25, 0.35]`. -/
theorem C2_gesture_thresholds (s : HandsState) (lm : ℕ → Landmark) :
    (avgDistOf lm < 0.25 →
      classifyOpenClosed s (avgDistOf lm) =
        { s with gesture := Gesture.CLOSED, mode := Mode.TREE }) ∧
    (avgDistOf lm > 0.35 →
      classifyOpenClosed s (avgDistOf lm) =
        { s with gesture := Gesture.OPEN, mode := Mode.SCATTER }) ∧
    (0.25 ≤ avgDistOf lm → avgDistOf lm ≤ 0.35 →
      classifyOpenClosed s (avgDistOf lm) = s) := by
  refine ⟨fun h => ?_, fun h => ?_, fun h1 h2 => ?_⟩
  · unfold classifyOpenClosed
    rw [if_pos h]
  · unfold classifyOpenClosed
    rw [if_neg (by linarith), if_pos h]
  · unfold classifyOpenClosed
    rw [if_neg (by linarith), if_neg (by simp; linarith)]

/-- Helper: the concrete closed-hand landmark set has average
wrist-to-fingertip distance `0.1`. -/
theorem avgDistOf_lmClosed : avgDistOf lmClosed = 0.1 := by
  have hd : dist2 (⟨0, 0⟩ : Landmark) (⟨0.1, 0⟩ : Landmark) = 0.1 := by
    unfold dist2
    rw [show ((0:ℝ) - 0.1) ^ 2 + ((0:ℝ) - 0) ^ 2 = 0.1 ^ 2 by norm_num,
      Real.sqrt_sq (by norm_num)]
  have h0 : lmClosed 0 = ⟨0, 0⟩ := rfl
  have h8 : lmClosed 8 = ⟨0.1, 0⟩ := rfl
  have h12 : lmClosed 12 = ⟨0.1, 0⟩ := rfl
  have h16 : lmClosed 16 = ⟨0.1, 0⟩ := rfl
  have h20 : lmClosed 20 = ⟨0.1, 0⟩ := rfl
  unfold avgDistOf
  rw [h0, h8, h12, h16, h20, hd]
  norm_num

/-- Witness for claim C2: the concrete closed-hand landmark set (average
distance `0.1 < 0.25`) drives the initial state to gesture CLOSED and mode
TREE. -/
theorem C2_gesture_thresholds_witness :
    classifyOpenClosed initialState (avgDistOf lmClosed) =
      { initialState with gesture := Gesture.CLOSED, mode := Mode.TREE } :=
  (C2_gesture_thresholds initialState lmClosed).1
    (by rw [avgDistOf_lmClosed]; norm_num)

/-- Claim C3: whenever the thumb-tip/index-tip distance is below `0.05` the
gesture becomes PINCH; playback is requested exactly when the mode is
SCATTER, the blended opacity exceeds `0.8`, and the video is not already
flagged as playing; the flag ends true exactly when it was already true or
the SCATTER/opacity conditions held; and a pinch while already playing never
requests playback again. -/
theorem C3_pinch_gating (s : HandsState) (d : ℝ) (hd : d < 0.05) :
    (pinchStep s d).1.gesture = Gesture.PINCH ∧
    ((pinchStep s d).2 = true ↔
      (s.mode = Mode.SCATTER ∧ s.videoOpacity > 0.8 ∧ s.isPlayingVideo = false)) ∧
    ((pinchStep s d).1.isPlayingVideo = true ↔
      (s.isPlayingVideo = true ∨ (s.mode = Mode.SCATTER ∧ s.videoOpacity > 0.8))) ∧
    (s.isPlayingVideo = true → (pinchStep s d).2 = false) := by
  simp only [pinchStep]
  rw [if_pos hd]
  split_ifs with hc hp
  · obtain ⟨hm, ho⟩ := hc
    simp [hm, ho, hp]
  · obtain ⟨hm, ho⟩ := hc
    simp only [Bool.not_eq_false] at hp
    simp [hm, ho, hp]
  · rw [not_and_or] at hc
    rcases hc with hm | ho
    · simp [hm]
    · simp [ho]

/-- Concrete pre-state for the pinch branch: SCATTER mode, opacity `0.85`,
video not yet playing. -/
noncomputable def hsPinchReady : HandsState :=
  { mode := Mode.SCATTER
    isPlayingVideo := false
    handDetected := true
    handX := 0
    gesture := Gesture.NONE
    rotationTarget := 0
    videoOpacity := 0.85 }

/-- Witness for claim C3: a pinch at distance `0.01` in the ready state
yields gesture PINCH. -/
theorem C3_pinch_gating_witness :
    (pinchStep hsPinchReady 0.01).1.gesture = Gesture.PINCH :=
  (C3_pinch_gating hsPinchReady 0.01 (by norm_num)).1

/-- Helper: a pinch below the threshold always ends with gesture PINCH and
never changes the mode. -/
theorem pinchStep_gesture_mode (s : HandsState) (d : ℝ) (hd : d < 0.05) :
    (pinchStep s d).1.gesture = Gesture.PINCH ∧ (pinchStep s d).1.mode = s.mode := by
  simp only [pinchStep]
  rw [if_pos hd]
  split_ifs <;> exact ⟨rfl, rfl⟩

/-- Helper: the mode produced by the open/closed classification as a single
conditional expression. -/
theorem classifyOpenClosed_mode (s : HandsState) (a : ℝ) :
    (classifyOpenClosed s a).mode =
      (if a < 0.25 then Mode.TREE
       else if a > 0.35 then Mode.SCATTER else s.mode) := by
  unfold classifyOpenClosed
  split_ifs <;> rfl

/-- Helper: the hand-present branch of the callback is the open/closed
classification followed by the pinch branch. -/
theorem onHandsResults_some (s : HandsState) (lm : ℕ → Landmark) :
    onHandsResults s (some lm) =
      pinchStep
        (classifyOpenClosed
          { s with handDetected := true, handX := ((lm 0).x - 0.5) * 2 }
          (avgDistOf lm))
        (dist2 (lm 4) (lm 8)) := rfl

/-- Claim C10: within one callback with a hand present, a thumb-tip/index-tip
distance below `0.05` makes the final gesture PINCH regardless of the
open/closed classification, while the final mode is still the one produced by
that classification (TREE below `0.25`, SCATTER above `0.35`, otherwise the
incoming mode). -/
theorem C10_pinch_override (s : HandsState) (lm : ℕ → Landmark)
    (hp : dist2 (lm 4) (lm 8) < 0.05) :
    ((onHandsResults s (some lm)).1).gesture = Gesture.PINCH ∧
    ((onHandsResults s (some lm)).1).mode =
      (if avgDistOf lm < 0.25 then Mode.TREE
       else if avgDistOf lm > 0.35 then Mode.SCATTER else s.mode) := by
  rw [onHandsResults_some]
  refine ⟨(pinchStep_gesture_mode _ _ hp).1, ?_⟩
  rw [(pinchStep_gesture_mode _ _ hp).2, classifyOpenClosed_mode]

/-- Witness for claim C10: the all-zero landmark set (pinch distance `0`,
average distance `0 < 0.25`) leaves the callback with gesture PINCH. -/
theorem C10_pinch_override_witness :
    ((onHandsResults initialState (some lmAllZero)).1).gesture = Gesture.PINCH :=
  (C10_pinch_override initialState lmAllZero
    (by unfold dist2 lmAllZero; norm_num)).1

/-- Claim C5: mode-transition side effects are edge-triggered.  While the
mode equals the recorded previous mode the transition block does nothing;
on an edge the new mode is recorded regardless of the play outcome;
entering SCATTER requests playback with `muted = !userInteracted` (flag set
on success); leaving SCATTER (over the full video tick) pauses the element,
clears the flag and requests nothing; and the tick after any tick never
requests playback again. -/
theorem C5_mode_transition_edge (u p u2 p2 : Bool) (s : VideoState) :
    (s.mode = s.prevMode → modeTransitionStep u p s = (s, false)) ∧
    (s.mode ≠ s.prevMode → ((modeTransitionStep u p s).1).prevMode = s.mode) ∧
    (s.mode ≠ s.prevMode → s.mode = Mode.SCATTER →
      (modeTransitionStep u p s).2 = true ∧
      ((modeTransitionStep u p s).1).videoMuted = !u ∧
      (p = true → ((modeTransitionStep u p s).1).isPlayingVideo = true)) ∧
    (s.mode ≠ s.prevMode → s.mode ≠ Mode.SCATTER →
      ((videoTick u p s).1).videoPaused = true ∧
      ((videoTick u p s).1).isPlayingVideo = false ∧
      (videoTick u p s).2 = false) ∧
    (videoTick u2 p2 ((videoTick u p s).1)).2 = false := by
  rcases s with ⟨m, pm, a, b, c⟩
  cases u <;> cases p <;> cases u2 <;> cases p2 <;>
    cases m <;> cases pm <;> cases a <;> cases b <;> cases c <;> decide

/-- Concrete edge state: mode just flipped to SCATTER (previous mode TREE),
video paused and not flagged as playing. -/
def vsEnterScatter : VideoState :=
  { mode := Mode.SCATTER
    prevMode := Mode.TREE
    isPlayingVideo := false
    videoPaused := true
    videoMuted := true }

/-- Witness for claim C5: on the TREE-to-SCATTER edge with an interacted
user, playback is requested. -/
theorem C5_mode_transition_edge_witness :
    (modeTransitionStep true true vsEnterScatter).2 = true :=
  ((C5_mode_transition_edge true true true true vsEnterScatter).2.2.1
    (by decide) rfl).1

/-- Concrete state in which the video element is playing (not paused) while
`STATE.isPlayingVideo` is still false, as after the overlay-click play call
or before the `playing` event has fired; the mode is TREE and stable. -/
def vsUnflaggedPlaying : VideoState :=
  { mode := Mode.TREE
    prevMode := Mode.TREE
    isPlayingVideo := false
    videoPaused := false
    videoMuted := false }

/-- Counterexample to claim C6: a tick executed in TREE mode does not always
end with the video paused — when `isPlayingVideo` is false but the element is
playing, the tick leaves it playing (the source pauses only under
`if (STATE.isPlayingVideo)`). -/
theorem C6_tree_tick_counterexample :
    ((videoTick false false vsUnflaggedPlaying).1).videoPaused = false := by
  decide

/-- Claim C6 (amended): on every tick in TREE mode the flag `isPlayingVideo`
ends up false; the video is paused whenever the flag was set; the stop action
is idempotent; and a tick with the video already stopped and the mode stable
changes nothing. -/
theorem C6_tree_tick_amended (u p : Bool) (s : VideoState)
    (h : s.mode = Mode.TREE) :
    ((videoTick u p s).1).isPlayingVideo = false ∧
    (s.isPlayingVideo = true → ((videoTick u p s).1).videoPaused = true) ∧
    treeStopStep (treeStopStep s) = treeStopStep s ∧
    (s.isPlayingVideo = false → s.videoPaused = true → s.prevMode = s.mode →
      videoTick u p s = (s, false)) := by
  revert u p s
  decide

/-- Concrete state: TREE mode with the video still flagged as playing. -/
def vsTreePlaying : VideoState :=
  { mode := Mode.TREE
    prevMode := Mode.TREE
    isPlayingVideo := true
    videoPaused := false
    videoMuted := false }

/-- Witness for the amended claim C6: a TREE tick on a playing video clears
the playing flag. -/
theorem C6_tree_tick_amended_witness :
    ((videoTick false false vsTreePlaying).1).isPlayingVideo = false :=
  (C6_tree_tick_amended false false vsTreePlaying rfl).1

/-- Counterexample to claim C4: the pinch handler sets `isPlayingVideo` to
true synchronously at the moment it requests playback (before any play
promise can resolve), so the flag does not stay false until a play attempt
succeeds. -/
theorem C4_eager_flag_counterexample :
    (pinchStep hsPinchReady 0.01).1.isPlayingVideo = true ∧
    (pinchStep hsPinchReady 0.01).2 = true := by
  norm_num [pinchStep, hsPinchReady]

/-- Claim C4 (amended): on the enter-SCATTER transition `isPlayingVideo`
becomes true only when the play attempt succeeds and is left unchanged when
it fails; the pinch handler, however, sets the flag and requests playback in
the same synchronous step, independent of the attempt's outcome. -/
theorem C4_flag_on_success_amended (u : Bool) (vs : VideoState)
    (hs : HandsState) (d : ℝ) :
    (vs.mode = Mode.SCATTER → vs.mode ≠ vs.prevMode →
      ((modeTransitionStep u false vs).1).isPlayingVideo = vs.isPlayingVideo ∧
      ((modeTransitionStep u true vs).1).isPlayingVideo = true) ∧
    (d < 0.05 → hs.mode = Mode.SCATTER → hs.videoOpacity > 0.8 →
      hs.isPlayingVideo = false →
      (pinchStep hs d).1.isPlayingVideo = true ∧ (pinchStep hs d).2 = true) := by
  constructor
  · revert u vs
    decide
  · intro hd hm ho hf
    simp only [pinchStep]
    rw [if_pos hd, if_pos ⟨hm, ho⟩, if_pos hf]
    exact ⟨rfl, rfl⟩

/-- Witness for the amended claim C4: a pinch at distance `0.01` in the
ready state sets the flag eagerly while requesting playback. -/
theorem C4_flag_on_success_amended_witness :
    (pinchStep hsPinchReady 0.01).1.isPlayingVideo = true ∧
    (pinchStep hsPinchReady 0.01).2 = true :=
  (C4_flag_on_success_amended true vsEnterScatter hsPinchReady 0.01).2
    (by norm_num) rfl (by norm_num [hsPinchReady]) rfl

/-- Counterexample to claim C1: in SCATTER mode the per-axis distance to the
scatter-table entry does not shrink by the factor `1 - lerpSpeed`; with the
particle starting exactly on the table entry (distance `0`) and
`time = pi/2`, the vertical oscillation moves its `y` off the table entry,
so the claimed relation would force it to stay at `0`. -/
theorem C1_scatter_oscillation_counterexample :
    (mainCloudStep Mode.SCATTER (fun _ => ⟨0, 0, 0⟩) (fun _ => ⟨0, 0, 0⟩)
        (Real.pi / 2) 0 ⟨0, 0, 0⟩).y ≠
      ((fun _ => (⟨0, 0, 0⟩ : Vec3)) 0).y := by
  have hy : (mainCloudStep Mode.SCATTER (fun _ => (⟨0, 0, 0⟩ : Vec3))
      (fun _ => (⟨0, 0, 0⟩ : Vec3)) (Real.pi / 2) 0 ⟨0, 0, 0⟩).y =
      lerp 0 (0 + Real.sin (Real.pi / 2 + 0) * 0.005) CONFIG.lerpSpeed := rfl
  rw [hy, add_zero, Real.sin_pi_div_two]
  unfold lerp CONFIG.lerpSpeed
  norm_num

/-- Claim C1 (amended): each Main Cloud tick moves every axis toward the
per-tick target with exact geometric decay
`|v1 - t| = |v0 - t| * (1 - lerpSpeed)`; in TREE mode that target is exactly
the (immutable) tree-table entry, while in SCATTER mode its `x` and `z`
components equal the scatter-table entry and its `y` component is the table
entry plus a vertical oscillation bounded by `0.005`. -/
theorem C1_main_cloud_lerp_amended (mode : Mode) (treeP scatterP : ℕ → Vec3)
    (time : ℝ) (i : ℕ) (p : Vec3) :
    |(mainCloudStep mode treeP scatterP time i p).x -
        (mainCloudTarget mode treeP scatterP time i).x| =
      |p.x - (mainCloudTarget mode treeP scatterP time i).x| *
        (1 - CONFIG.lerpSpeed) ∧
    |(mainCloudStep mode treeP scatterP time i p).y -
        (mainCloudTarget mode treeP scatterP time i).y| =
      |p.y - (mainCloudTarget mode treeP scatterP time i).y| *
        (1 - CONFIG.lerpSpeed) ∧
    |(mainCloudStep mode treeP scatterP time i p).z -
        (mainCloudTarget mode treeP scatterP time i).z| =
      |p.z - (mainCloudTarget mode treeP scatterP time i).z| *
        (1 - CONFIG.lerpSpeed) ∧
    mainCloudTarget Mode.TREE treeP scatterP time i = treeP i ∧
    (mainCloudTarget Mode.SCATTER treeP scatterP time i).x = (scatterP i).x ∧
    (mainCloudTarget Mode.SCATTER treeP scatterP time i).z = (scatterP i).z ∧
    |(mainCloudTarget Mode.SCATTER treeP scatterP time i).y - (scatterP i).y| ≤
      0.005 := by
  have hf : CONFIG.lerpSpeed ≤ 1 := by unfold CONFIG.lerpSpeed; norm_num
  refine ⟨abs_lerp_sub p.x _ CONFIG.lerpSpeed hf,
    abs_lerp_sub p.y _ CONFIG.lerpSpeed hf,
    abs_lerp_sub p.z _ CONFIG.lerpSpeed hf, rfl, rfl, rfl, ?_⟩
  show |(scatterP i).y + Real.sin (time + (scatterP i).x) * 0.005 -
    (scatterP i).y| ≤ 0.005
  rw [add_sub_cancel_left, abs_mul,
    abs_of_nonneg (by norm_num : (0:ℝ) ≤ 0.005)]
  calc |Real.sin (time + (scatterP i).x)| * 0.005 ≤ 1 * 0.005 := by
        have hs : |Real.sin (time + (scatterP i).x)| ≤ 1 :=
          abs_le.mpr ⟨Real.neg_one_le_sin _, Real.sin_le_one _⟩
        exact mul_le_mul_of_nonneg_right hs (by norm_num)
    _ = 0.005 := one_mul _

/-- Claim C7: the Spiral Band update never reads the previous position; in
SCATTER mode the output is exactly the precomputed scatter coordinate (so it
teleports on the very first tick after a flip); in TREE mode the output
height lies in `[-treeHeight/2, treeHeight/2]` and differs from
`pct*treeHeight - treeHeight/2 + time*spiralSpeed` by an integer multiple of
`treeHeight` (the modulo wrap plus re-basing), and the `x`/`z` coordinates
follow the angle and shrink-toward-apex radius recomputed from the wrapped
normalized height. -/
theorem C7_spiral_update (m : Mode) (scatterC : ℕ → Vec3) (time : ℝ) (i : ℕ)
    (p q : Vec3) (ht : 0 ≤ time) (hi : i < CONFIG.spiralCount) :
    spiralStep Mode.SCATTER scatterC time i p = scatterC i ∧
    spiralStep m scatterC time i p = spiralStep m scatterC time i q ∧
    -(CONFIG.treeHeight / 2) ≤ (spiralStep Mode.TREE scatterC time i p).y ∧
    (spiralStep Mode.TREE scatterC time i p).y ≤ CONFIG.treeHeight / 2 ∧
    (∃ k : ℤ, (spiralStep Mode.TREE scatterC time i p).y =
      (i : ℝ) / (CONFIG.spiralCount : ℝ) * CONFIG.treeHeight -
        CONFIG.treeHeight / 2 + time * CONFIG.spiralSpeed -
        (k : ℝ) * CONFIG.treeHeight) ∧
    (spiralStep Mode.TREE scatterC time i p).x =
      Real.cos (specSpiralAngle (spiralStep Mode.TREE scatterC time i p).y time) *
        specSpiralRadius (spiralStep Mode.TREE scatterC time i p).y ∧
    (spiralStep Mode.TREE scatterC time i p).z =
      Real.sin (specSpiralAngle (spiralStep Mode.TREE scatterC time i p).y time) *
        specSpiralRadius (spiralStep Mode.TREE scatterC time i p).y := by
  have hy : (spiralStep Mode.TREE scatterC time i p).y =
      (if (i : ℝ) / (CONFIG.spiralCount : ℝ) * CONFIG.treeHeight -
            CONFIG.treeHeight / 2 +
            jsMod (time * CONFIG.spiralSpeed) CONFIG.treeHeight >
            CONFIG.treeHeight / 2
       then (i : ℝ) / (CONFIG.spiralCount : ℝ) * CONFIG.treeHeight -
            CONFIG.treeHeight / 2 +
            jsMod (time * CONFIG.spiralSpeed) CONFIG.treeHeight -
            CONFIG.treeHeight
       else (i : ℝ) / (CONFIG.spiralCount : ℝ) * CONFIG.treeHeight -
            CONFIG.treeHeight / 2 +
            jsMod (time * CONFIG.spiralSpeed) CONFIG.treeHeight) := rfl
  have hH : CONFIG.treeHeight = 6 := rfl
  have ha : 0 ≤ time * CONFIG.spiralSpeed :=
    mul_nonneg ht (by unfold CONFIG.spiralSpeed; norm_num)
  have hH0 : (0:ℝ) < CONFIG.treeHeight := by rw [hH]; norm_num
  have hfl0 : 0 ≤ jsMod (time * CONFIG.spiralSpeed) CONFIG.treeHeight :=
    jsMod_nonneg _ _ ha hH0
  have hfl1 : jsMod (time * CONFIG.spiralSpeed) CONFIG.treeHeight <
      CONFIG.treeHeight := jsMod_lt _ _ ha hH0
  have hpct0 : 0 ≤ (i : ℝ) / (CONFIG.spiralCount : ℝ) :=
    div_nonneg (Nat.cast_nonneg i) (Nat.cast_nonneg _)
  have hpct1 : (i : ℝ) / (CONFIG.spiralCount : ℝ) < 1 := by
    rw [div_lt_one (by unfold CONFIG.spiralCount; norm_num)]
    exact_mod_cast hi
  have hb0 : 0 ≤ (i : ℝ) / (CONFIG.spiralCount : ℝ) * CONFIG.treeHeight :=
    mul_nonneg hpct0 hH0.le
  have hb1 : (i : ℝ) / (CONFIG.spiralCount : ℝ) * CONFIG.treeHeight <
      CONFIG.treeHeight := by
    calc (i : ℝ) / (CONFIG.spiralCount : ℝ) * CONFIG.treeHeight <
        1 * CONFIG.treeHeight := mul_lt_mul_of_pos_right hpct1 hH0
      _ = CONFIG.treeHeight := one_mul _
  refine ⟨rfl, rfl, ?_, ?_, ?_, rfl, rfl⟩
  · rw [hy]
    split_ifs with hgt
    · rw [hH] at hgt ⊢; rw [hH] at hfl1 hb1
      linarith
    · rw [hH] at hgt ⊢; rw [hH] at hfl0 hb0
      linarith
  · rw [hy]
    split_ifs with hgt
    · rw [hH] at hgt ⊢; rw [hH] at hfl1 hb1
      linarith
    · rw [hH] at hgt ⊢
      linarith
  · obtain ⟨k0, hk0⟩ := jsMod_sub_int (time * CONFIG.spiralSpeed) CONFIG.treeHeight
    rw [hy]
    split_ifs with hgt
    · refine ⟨k0 + 1, ?_⟩
      rw [hk0]
      push_cast
      ring
    · refine ⟨k0, ?_⟩
      rw [hk0]
      ring

/-- Witness for claim C7: at `time = 0` and index `0` the SCATTER branch
writes the precomputed scatter coordinate verbatim. -/
theorem C7_spiral_update_witness :
    spiralStep Mode.SCATTER (fun _ => ⟨1, 2, 3⟩) 0 0 ⟨0, 0, 0⟩ =
      (⟨1, 2, 3⟩ : Vec3) :=
  (C7_spiral_update Mode.TREE (fun _ => ⟨1, 2, 3⟩) 0 0 ⟨0, 0, 0⟩ ⟨0, 0, 0⟩
    le_rfl (by decide)).1

/-- Helper: the norm of a spherical-coordinate point with nonnegative radial
factor is that factor. -/
theorem sphericalNorm (sr phi theta : ℝ) (hsr : 0 ≤ sr) :
    Real.sqrt ((sr * Real.sin phi * Real.cos theta) ^ 2 +
      (sr * Real.sin phi * Real.sin theta) ^ 2 +
      (sr * Real.cos phi) ^ 2) = sr := by
  have h1 := Real.sin_sq_add_cos_sq theta
  have h2 := Real.sin_sq_add_cos_sq phi
  have hsum : (sr * Real.sin phi * Real.cos theta) ^ 2 +
      (sr * Real.sin phi * Real.sin theta) ^ 2 +
      (sr * Real.cos phi) ^ 2 = sr ^ 2 := by
    linear_combination (sr ^ 2 * Real.sin phi ^ 2) * h1 + sr ^ 2 * h2
  rw [hsum]
  exact Real.sqrt_sq hsr

/-- Claim C8: every Main Cloud scatter sample lies at distance
`scatterRadius * cbrt u` from the origin — in particular within
`scatterRadius` — and the cube of that distance is `scatterRadius^3 * u`,
i.e. the radius is cube-root-scaled in the uniform draw rather than uniform
itself. -/
theorem C8_scatter_sampling (u v w : ℝ) (hu0 : 0 ≤ u) (hu1 : u < 1) :
    vecNorm (scatterSample u v w) = CONFIG.scatterRadius * cbrt u ∧
    vecNorm (scatterSample u v w) ≤ CONFIG.scatterRadius ∧
    vecNorm (scatterSample u v w) ^ 3 = CONFIG.scatterRadius ^ 3 * u := by
  have hcbrt0 : 0 ≤ cbrt u := Real.rpow_nonneg hu0 _
  have hcbrt1 : cbrt u ≤ 1 := Real.rpow_le_one hu0 hu1.le (by norm_num)
  have hR : (0:ℝ) ≤ CONFIG.scatterRadius := by
    unfold CONFIG.scatterRadius; norm_num
  have hsr : 0 ≤ CONFIG.scatterRadius * cbrt u := mul_nonneg hR hcbrt0
  have hnorm : vecNorm (scatterSample u v w) = CONFIG.scatterRadius * cbrt u :=
    sphericalNorm (CONFIG.scatterRadius * cbrt u) (Real.arccos (2 * w - 1))
      (v * 2 * Real.pi) hsr
  refine ⟨hnorm, ?_, ?_⟩
  · rw [hnorm]
    calc CONFIG.scatterRadius * cbrt u ≤ CONFIG.scatterRadius * 1 :=
        mul_le_mul_of_nonneg_left hcbrt1 hR
      _ = CONFIG.scatterRadius := mul_one _
  · rw [hnorm, mul_pow]
    have hcube : cbrt u ^ 3 = u := by
      unfold cbrt
      rw [← Real.rpow_natCast (u ^ ((1:ℝ) / 3)) 3, ← Real.rpow_mul hu0]
      norm_num
    rw [hcube]

/-- Witness for claim C8: the degenerate draw `u = v = w = 0` lies within
the scatter radius. -/
theorem C8_scatter_sampling_witness :
    vecNorm (scatterSample 0 0 0) ≤ CONFIG.scatterRadius :=
  (C8_scatter_sampling 0 0 0 le_rfl (by norm_num)).2.1
